import Mathlib

/-!
Verification development for the `usadson/webserver` HTTP server.

The C++ sources under `src/http/client.cpp` (the per-connection request
parser and session orchestration) are shallowly embedded below.  The byte
stream of the connection is modelled as a `List Char` of byte-valued
characters (every input character has code point < 256); `ReadChar`
popping one byte corresponds to taking the head of the list, and a failed
read corresponds to the empty list.  Output written to the connection is
collected in an event trace.  Each embedded function carries the name of
the C++ function it models.
-/

/-- Enumeration of client errors, mirroring `HTTP::ClientError` as listed in
`src/http/client_error.cpp` (the name table gives the full variant list in
declaration order). -/
inductive ClientError where
  | CHECK_FILE_LOCATION_VERIFICATION_FAILURE
  | CHECK_FILE_LOCATION_OUTSIDE_ROOT_DIRECTORY
  | EMPTY_METHOD
  | FAILED_READ_GENERIC
  | FAILED_READ_HEADER_FIELD_GENERIC
  | FAILED_READ_HEADER_FIELD_NAME
  | FAILED_READ_HEADER_FIELD_VALUE
  | FAILED_READ_HEADER_NEWLINE
  | FAILED_READ_METHOD
  | FAILED_READ_PATH
  | FAILED_READ_CRLF
  | FAILED_READ_VERSION
  | FAILED_WRITE_RESPONSE_BODY
  | FAILED_WRITE_RESPONSE_METADATA
  | FILE_NOT_FOUND
  | INCORRECT_HEADER_FIELD_NAME
  | INCORRECT_HEADER_FIELD_NEWLINE
  | INCORRECT_HEADER_FIELD_VALUE
  | INCORRECT_METHOD
  | INCORRECT_PATH
  | INCORRECT_CRLF
  | INCORRECT_VERSION
  | INVALID_PATH_EMPTY
  | INVALID_PATH_NOT_ABSOLUTE
  | INVALID_PATH_MULTIPLE_QUESTION_MARKS
  | NO_ERROR
  | POLICY_TOO_LONG_METHOD
  | TOO_MANY_REQUESTS_PER_THIS_CONNECTION
  | UNEXPECTED_CR_IN_FIELD_NAME
  | UPGRADE_TO_HTTPS
  | WHITESPACE_EXPECTED
deriving DecidableEq, Repr

namespace Utils

/-- Modelled from the spec: `Utils::IsTokenCharacter` lives in
`src/http/utils.hpp`, which is not under `src/`.  The spec defines the
RFC 7230 `tchar` class as the punctuation list below plus digits and
letters.  The backtick and the apostrophe are written via their code
points 0x60 and 0x27. -/
def IsTokenCharacter (c : Char) : Bool :=
  c = '!' || c = '#' || c = '$' || c = '%' || c = '&' || c = Char.ofNat 0x27 ||
  c = '*' || c = '+' || c = '-' || c = '.' || c = '^' || c = '_' ||
  c = Char.ofNat 0x60 || c = '|' || c = '~' ||
  ('0' ≤ c && c ≤ '9') || ('A' ≤ c && c ≤ 'Z') || ('a' ≤ c && c ≤ 'z')

/-- Modelled from the spec: `Utils::IsNumericCharacter` (from the missing
`src/http/utils.hpp`) accepts a single decimal digit. -/
def IsNumericCharacter (c : Char) : Bool :=
  '0' ≤ c && c ≤ '9'

/-- ASCII lower-casing of one character, modelling C `std::tolower` as
applied to byte-valued characters (client.cpp line 189). -/
def charLower (c : Char) : Char :=
  if 'A' ≤ c && c ≤ 'Z' then Char.ofNat (c.toNat + 32) else c

end Utils

/-- Models the free function `StringStartsWith(string, prefixStr)` of
`src/http/client.cpp` lines 36-43: the `std::mismatch` formulation returns
true exactly when the second argument is a prefix of the first. -/
def StringStartsWith (s pre : String) : Bool :=
  pre.data.isPrefixOf s.data

namespace Strings

/-- Status line `Strings::StatusLines::OK`; the value is the one given in
`src/base/strings.cpp`. -/
def StatusLineOK : String := "HTTP/1.1 200 OK"

/-- Status line for 400 responses, from `src/base/strings.cpp`. -/
def StatusLineBadRequest : String := "HTTP/1.1 400 Bad Request"

/-- Status line for 404 responses, from `src/base/strings.cpp`. -/
def StatusLineNotFound : String := "HTTP/1.1 404 Not Found"

/-- Status line for 429 responses, from `src/base/strings.cpp`. -/
def StatusLineTooManyRequests : String := "HTTP/1.1 429 Too Many Requests"

/-- Built-in default web page served for the site root, byte-for-byte the
literal of `src/base/strings.cpp` (braces written via \x7b and \x7d). -/
def DefaultWebPage : String := "<!doctype html><html lang=\"en\"><head><meta name=\"author\" content=\"Tristan\"><meta charset=\"utf-8\"><meta name=\"description\" content=\"It works! This is a default webpage.\"><title>Wizard Web Server - Default Webpage</title><style>*\x7bfont-family:\"Noto Sans\",\"Calibri\",\"Roboto\",sans-serif\x7dhtml\x7bbackground-color:#ddd;margin:0;height:100%\x7dbody\x7bheight:100%;margin:0\x7dmain\x7bmargin:0 10%;height:100%;width:80%;background-color:#fff\x7dh1\x7bpadding-top:10%;margin:0;text-align:center\x7ddiv\x7bmargin:0 6%\x7d</style></head><body><main><h1>Wizard Web Server</h1><div><h3>It works!</h3><p>The fact that you can read this means that the web server has been configured correctly!</p><p>Now go ahead and change this page to your personal homepage :)</p></div><div><h3>About</h3><p>This is a default page, served to you by the <a href=\"https://github.com/usadson/WebServer\">Wizard Web Server</a>, a free BSD-3-Clause licensed webserver.</p></div></main></body></html>"

/-- Not-found page from `src/base/strings.cpp`. -/
def NotFoundPage : String := "<!doctype html><html><head><title>File Not Found</title></head><body><h1>File Not Found</h1></body></html>"

/-- Too-many-requests page from `src/base/strings.cpp`. -/
def TooManyRequestsPage : String := "<!doctype html><html><head><title>Too Many Requests</title></head><body><h1>Too Many Requests!</h1></body></html>"

/-- Modelled from the spec: `Strings::BadRequests::EmptyMethod` is declared
in `base/strings.hpp`, which is not under `src/`; it is the human-readable
diagnostic for an empty method. Its exact wording is not in the sources;
only its distinctness from the other diagnostics matters here. -/
def BadRequestsEmptyMethod : String := "empty method"

end Strings

/-- Media type record, modelling the fields of `MediaType` in
`src/base/media_type.hpp` that the client code reads (`completeType` and
`includeCharset`). -/
structure MediaType where
  completeType : String
  includeCharset : Bool
deriving DecidableEq, Repr

namespace MediaTypes

/-- Modelled from the spec: the `MediaTypes::TEXT` constant (its defining
translation unit is not under `src/`); per the `MediaType` constructor in
`src/base/media_type.hpp`, a "text" type carries the charset flag. -/
def TEXT : MediaType := { completeType := "text/plain", includeCharset := true }

/-- Modelled from the spec: the `MediaTypes::HTML` constant (its defining
translation unit is not under `src/`); a "text" type carries the charset
flag. -/
def HTML : MediaType := { completeType := "text/html", includeCharset := true }

end MediaTypes

/-- Header storage.  Modelled from the spec: the `Request` declaration in
the real `http/request.hpp` is not under `src/` (the `src/http/client.hpp`
present is a stale stub); spec section 3 describes `headers` as a
uniqueness-enforcing mapping from field-name to field-value, i.e. a
`std::map<std::string, std::string>`.  We represent it as an association
list with unique keys. -/
abbrev Headers : Type := List (String × String)

/-- Lookup in the header mapping, modelling `std::map::find`. -/
def headersFind (hs : Headers) (k : String) : Option String :=
  (List.find? (fun p => p.1 = k) hs).map (fun p => p.2)

/-- Insertion into the header mapping, modelling `std::map::insert` as
called at `src/http/client.cpp` line 131: per the C++ standard,
`std::map::insert` does nothing when the key is already present (it never
overwrites the mapped value). -/
def headersInsert (hs : Headers) (k v : String) : Headers :=
  if (List.find? (fun p => p.1 = k) hs).isSome then hs else hs ++ [(k, v)]

/-- Request record.  Modelled from the spec (section 3): the defining
header is not under `src/`; the fields are exactly those assigned by
`src/http/client.cpp` (`method`, `path`, `query`, `headers`). -/
structure Request where
  method : String := ""
  path : String := ""
  query : String := ""
  headers : Headers := []

/-- Fresh request, modelling `Request()` default construction. -/
def Request.empty : Request := {}

/-- Resolved file record, modelling the `IO::File` interface consumed by
the client code: canonical-path candidate, byte size and a transmissible
handle (`file->Path()`, `file->Size()`, `file->Handle()`). -/
structure ServedFile where
  path : String
  size : Nat
  handle : Nat
deriving DecidableEq, Repr

/-- Security policy configuration, modelling the two fields of
`Security::Policies` that `src/http/client.cpp` reads. -/
structure SecurityPolicies where
  maxRequestsPerConnection : Nat
  maxRequestsCloseImmediately : Bool

/-- Server configuration, modelling the fields of `HTTP::Configuration`
that `src/http/client.cpp` reads. -/
structure Configuration where
  rootDirectory : String
  serverProductName : String
  securityPolicies : SecurityPolicies

/-- Environment of external collaborators of one client session: the
configuration plus the file resolver, `realpath` canonicalization, the
media-type finder, and the path-character predicate
(`Utils::IsPathCharacter` lives in the missing `http/utils.hpp`, so it is
kept abstract as part of the environment). -/
structure Env where
  config : Configuration
  realpath : String → Option String
  fileResolver : Request → Option ServedFile
  detectMediaType : ServedFile → MediaType
  isPathCharacter : Char → Bool

/-- One event written to the connection: a string write
(`Connection::WriteString`) or a bulk file transmission
(`Connection::SendFile`). -/
inductive OutEvent where
  | str (s : String)
  | file (handle size : Nat)
deriving DecidableEq, Repr

/-- Mutable per-session state of `HTTP::Client`: the unread byte stream,
the write trace, the error-reporter trace (paths reported as misses), the
keep-alive flag and the request counter, plus the request being built. -/
structure ClientState where
  input : List Char
  output : List OutEvent
  reports : List String
  persistentConnection : Bool
  requestCount : Nat
  currentRequest : Request

/-- Append a string write to the trace (`Connection::WriteString`; writes
are modelled as succeeding — no claim depends on `FAILED_WRITE_*`). -/
def writeString (st : ClientState) (s : String) : ClientState :=
  { st with output := st.output ++ [OutEvent.str s] }

/-- Append a file transmission to the trace (`Connection::SendFile`). -/
def sendFileEvent (st : ClientState) (handle size : Nat) : ClientState :=
  { st with output := st.output ++ [OutEvent.file handle size] }

/-- Models the read loop of `Client::ConsumeMethod` (client.cpp 223-253)
with `buffer` as the accumulated octets: a space terminates (empty buffer
fails with `EMPTY_METHOD`), a non-token character fails with
`INCORRECT_METHOD`, stream end fails with `FAILED_READ_METHOD`.  The
result pairs the outcome with the unread remainder of the stream. -/
def ConsumeMethodAux (buffer : List Char) :
    List Char → Except ClientError (List Char) × List Char
  | [] => (Except.error ClientError.FAILED_READ_METHOD, [])
  | c :: rest =>
    if c = ' ' then
      if buffer = [] then (Except.error ClientError.EMPTY_METHOD, rest)
      else (Except.ok buffer, rest)
    else if Utils.IsTokenCharacter c then ConsumeMethodAux (buffer ++ [c]) rest
    else (Except.error ClientError.INCORRECT_METHOD, rest)

/-- Models `Client::ConsumeMethod` (client.cpp 223-253): the buffer starts
empty. -/
def ConsumeMethod (input : List Char) :
    Except ClientError (List Char) × List Char :=
  ConsumeMethodAux [] input

/-- Models the read loop of `Client::ConsumePath` (client.cpp 255-278):
a space terminates (an empty path is accepted), an invalid path character
fails with `INCORRECT_PATH`, stream end fails with `FAILED_READ_PATH`.
The path-character predicate is the environment's
`Utils::IsPathCharacter`. -/
def ConsumePathAux (ipc : Char → Bool) (buffer : List Char) :
    List Char → Except ClientError (List Char) × List Char
  | [] => (Except.error ClientError.FAILED_READ_PATH, [])
  | c :: rest =>
    if c = ' ' then (Except.ok buffer, rest)
    else if ipc c then ConsumePathAux ipc (buffer ++ [c]) rest
    else (Except.error ClientError.INCORRECT_PATH, rest)

/-- Models `Client::ConsumePath` (client.cpp 255-278). -/
def ConsumePath (ipc : Char → Bool) (input : List Char) :
    Except ClientError (List Char) × List Char :=
  ConsumePathAux ipc [] input

/-- Expected literal prefix of the version, `expectedChars` of
`Client::ConsumeVersion` (client.cpp 284-286). -/
def versionExpectedChars : List Char := ['H', 'T', 'T', 'P', '/', '1', '.']

/-- Per-index byte test of the `Client::ConsumeVersion` loop (client.cpp
line 293): index 7 must be a decimal digit, indices 0-6 must match the
literal. -/
def versionByteOk (i : Nat) (c : Char) : Bool :=
  if i = 7 then Utils.IsNumericCharacter c else c = versionExpectedChars.getD i ' '

/-- Models the indexed loop of `Client::ConsumeVersion` (client.cpp
288-296): at each index below 8, a failed read gives
`FAILED_READ_VERSION` and a failed byte test gives `INCORRECT_VERSION`;
after 8 accepted bytes the version is accepted and nothing is stored. -/
def ConsumeVersionGo : List Char → Nat → Except ClientError Unit × List Char
  | [], i => if i < 8 then (Except.error ClientError.FAILED_READ_VERSION, []) else (Except.ok (), [])
  | c :: rest, i =>
    if i < 8 then
      if versionByteOk i c then ConsumeVersionGo rest (i + 1)
      else (Except.error ClientError.INCORRECT_VERSION, rest)
    else (Except.ok (), c :: rest)

/-- Models `Client::ConsumeVersion` (client.cpp 280-301). -/
def ConsumeVersion (input : List Char) : Except ClientError Unit × List Char :=
  ConsumeVersionGo input 0

/-- Models `Client::ConsumeCRLF` (client.cpp 73-86): read two characters
(either read failing with `FAILED_READ_CRLF`), then require them to be
`\r` and `\n` (otherwise `INCORRECT_CRLF`). -/
def ConsumeCRLF : List Char → Except ClientError Unit × List Char
  | [] => (Except.error ClientError.FAILED_READ_CRLF, [])
  | [_] => (Except.error ClientError.FAILED_READ_CRLF, [])
  | cr :: lf :: rest =>
    if cr = '\r' && lf = '\n' then (Except.ok (), rest)
    else (Except.error ClientError.INCORRECT_CRLF, rest)

/-- Models the loop of `Client::ConsumeHeaderFieldName` (client.cpp
167-194) with `dest` the accumulated name: a `:` terminates; a `tchar`
(the same class as for methods) is lower-cased and appended; anything
else fails with `INCORRECT_HEADER_FIELD_NAME`; stream end fails with
`FAILED_READ_HEADER_FIELD_NAME`. -/
def ConsumeHeaderFieldName (dest : List Char) :
    List Char → Except ClientError (List Char) × List Char
  | [] => (Except.error ClientError.FAILED_READ_HEADER_FIELD_NAME, [])
  | c :: rest =>
    if c = ':' then (Except.ok dest, rest)
    else if Utils.IsTokenCharacter c then
      ConsumeHeaderFieldName (dest ++ [Utils.charLower c]) rest
    else (Except.error ClientError.INCORRECT_HEADER_FIELD_NAME, rest)

/-- Models the optional-whitespace loop of `Client::ConsumeHeaderField`
(client.cpp 101-113): skip spaces and tabs; the first other character is
returned (it is pushed into the value buffer unconditionally, even when
it is a `\r`); stream end fails with
`FAILED_READ_HEADER_FIELD_GENERIC`. -/
def ConsumeOptionalWhitespace :
    List Char → Except ClientError Char × List Char
  | [] => (Except.error ClientError.FAILED_READ_HEADER_FIELD_GENERIC, [])
  | c :: rest =>
    if c = ' ' || c = '\t' then ConsumeOptionalWhitespace rest
    else (Except.ok c, rest)

/-- One byte of a header value is acceptable when it is visible ASCII
(0x21-0x7E), obs-text (0x80-0xFF on the byte-valued stream), space or
tab (client.cpp 156-159). -/
def isFieldValueChar (c : Char) : Bool :=
  (0x21 ≤ c.toNat && c.toNat ≤ 0x7E) || (0x80 ≤ c.toNat && c.toNat ≤ 0xFF) ||
  c = ' ' || c = '\t'

/-- Models the loop of `Client::ConsumeHeaderFieldValue` (client.cpp
135-165) with `dest` the accumulated value: `\r` must be followed by
`\n` (terminating the value), acceptable bytes are appended, anything
else fails with `INCORRECT_HEADER_FIELD_VALUE`; the distinct read and
newline failures are kept apart. -/
def ConsumeHeaderFieldValue (dest : List Char) :
    List Char → Except ClientError (List Char) × List Char
  | [] => (Except.error ClientError.FAILED_READ_HEADER_FIELD_VALUE, [])
  | c :: rest =>
    if c = '\r' then
      match rest with
      | [] => (Except.error ClientError.FAILED_READ_HEADER_NEWLINE, [])
      | c2 :: rest2 =>
        if c2 = '\n' then (Except.ok dest, rest2)
        else (Except.error ClientError.INCORRECT_HEADER_FIELD_NEWLINE, rest2)
    else if isFieldValueChar c then ConsumeHeaderFieldValue (dest ++ [c]) rest
    else (Except.error ClientError.INCORRECT_HEADER_FIELD_VALUE, rest)

/-- Models the value post-processing of `Client::ConsumeHeaderField`
(client.cpp 122-131): a NUL is appended, the iterators to the first
space and the first tab are taken (`std::find` returns the end iterator
when absent), the smaller one is chosen, and the stored string ranges
from the beginning to one position before that iterator. -/
def trimHeaderValue (fieldValue : List Char) : List Char :=
  let fv := fieldValue ++ [Char.ofNat 0]
  let spaceIdx := (fv.findIdx? (fun c => c = ' ')).getD fv.length
  let tabIdx := (fv.findIdx? (fun c => c = '\t')).getD fv.length
  fv.take (min spaceIdx tabIdx - 1)

/-- Models the name post-processing of `Client::ConsumeHeaderField`
(client.cpp 122, 131): a NUL is appended and the stored name is the
C-string up to the first NUL.  The first character was pushed raw (line
95), before validation or lower-casing. -/
def headerNameString (firstCharacter : Char) (nameTail : List Char) : String :=
  String.mk ((firstCharacter :: nameTail).takeWhile (fun c => c ≠ Char.ofNat 0))

/-- Models `Client::ConsumeHeaderField` (client.cpp 88-133): consume the
field name (first character already read by the caller), the optional
whitespace, and the value; then store the name/value pair after the
post-processing above.  Returns the stored pair and the unread
remainder. -/
def ConsumeHeaderField (firstCharacter : Char) (input : List Char) :
    Except ClientError (String × String) × List Char :=
  match ConsumeHeaderFieldName [] input with
  | (Except.error e, rest) => (Except.error e, rest)
  | (Except.ok nameTail, rest) =>
    match ConsumeOptionalWhitespace rest with
    | (Except.error e, rest2) => (Except.error e, rest2)
    | (Except.ok c, rest2) =>
      match ConsumeHeaderFieldValue [c] rest2 with
      | (Except.error e, rest3) => (Except.error e, rest3)
      | (Except.ok fieldValue, rest3) =>
        (Except.ok (headerNameString firstCharacter nameTail,
                    String.mk (trimHeaderValue fieldValue)), rest3)

/-- Models the loop body of `Client::ConsumeHeaders` (client.cpp
196-221): read the first character of a line; a `\r` must be followed by
`\n` and ends the header block (anything else after `\r` is
`UNEXPECTED_CR_IN_FIELD_NAME`); any other character opens a header field
which is consumed and inserted into the accumulated mapping; then the
loop repeats.  Returns the outcome, the accumulated mapping (partial on
failure, as in the C++ where fields are inserted into the request as
they are parsed) and the unread remainder.  The loop is bounded by an
iteration budget to make the recursion structural: every successful
header field consumes at least one byte of the stream
(`ConsumeHeaderField_ok_length` below), so with the budget
`input.length + 1` used by `ConsumeHeaders` the zero-budget branch is
unreachable. -/
def ConsumeHeadersGo : Nat → Headers → List Char → ClientError × Headers × List Char
  | 0, headers, input => (ClientError.FAILED_READ_HEADER_FIELD_NAME, headers, input)
  | Nat.succ fuel, headers, input =>
    match input with
    | [] => (ClientError.FAILED_READ_HEADER_FIELD_NAME, headers, [])
    | c :: rest =>
      if c = '\r' then
        match rest with
        | [] => (ClientError.FAILED_READ_HEADER_NEWLINE, headers, [])
        | c2 :: rest2 =>
          if c2 = '\n' then (ClientError.NO_ERROR, headers, rest2)
          else (ClientError.UNEXPECTED_CR_IN_FIELD_NAME, headers, rest2)
      else
        match ConsumeHeaderField c rest with
        | (Except.error e, rest2) => (e, headers, rest2)
        | (Except.ok (n, v), rest2) => ConsumeHeadersGo fuel (headersInsert headers n v) rest2

/-- Models `Client::ConsumeHeaders` (client.cpp 196-221). -/
def ConsumeHeaders (headers : Headers) (input : List Char) :
    ClientError × Headers × List Char :=
  ConsumeHeadersGo (input.length + 1) headers input

/-- Models `Client::CheckFileLocation` (client.cpp 52-64): failed
canonicalization yields the verification-failure error; a canonical path
not prefixed by the configured root directory yields the
outside-root-directory error. -/
def CheckFileLocation (env : Env) (path : String) : ClientError :=
  match env.realpath path with
  | none => ClientError.CHECK_FILE_LOCATION_VERIFICATION_FAILURE
  | some dest =>
    if StringStartsWith dest env.config.rootDirectory then ClientError.NO_ERROR
    else ClientError.CHECK_FILE_LOCATION_OUTSIDE_ROOT_DIRECTORY

/-- Models `Client::ValidateCurrentRequestPath` (client.cpp 552-567): an
empty path and a path not starting with a slash are rejected. -/
def ValidateCurrentRequestPath (r : Request) : ClientError :=
  match r.path.data with
  | [] => ClientError.INVALID_PATH_EMPTY
  | c :: _ =>
    if c = '/' then ClientError.NO_ERROR else ClientError.INVALID_PATH_NOT_ABSOLUTE

/-- Models `Client::ExtractComponentsFromPath` (client.cpp 324-342): no
question mark leaves the request untouched; a second question mark after
the first fails with the dedicated error; otherwise the path is split at
the question mark into path and query. -/
def ExtractComponentsFromPath (r : Request) : ClientError × Request :=
  let p := r.path.data
  match p.findIdx? (fun c => c = '?') with
  | none => (ClientError.NO_ERROR, r)
  | some q =>
    if (p.drop (q + 1)).any (fun c => c = '?') then
      (ClientError.INVALID_PATH_MULTIPLE_QUESTION_MARKS, r)
    else
      (ClientError.NO_ERROR,
       { r with path := String.mk (p.take q), query := String.mk (p.drop (q + 1)) })

/-- Composition of the parsing stages exactly in the order of
`Client::RunMessageExchange` (client.cpp 467-502): method, path, path
validation, component extraction, version, CRLF, headers.  Returns the
first error (`NO_ERROR` on success), the request as built up to that
point (the C++ mutates `currentRequest` field by field), and the unread
remainder of the stream. -/
def parseRequest (ipc : Char → Bool) (input : List Char) :
    ClientError × Request × List Char :=
  match ConsumeMethod input with
  | (Except.error e, rest) => (e, Request.empty, rest)
  | (Except.ok m, rest) =>
    let r1 : Request := { Request.empty with method := String.mk m }
    match ConsumePath ipc rest with
    | (Except.error e, rest2) => (e, r1, rest2)
    | (Except.ok p, rest2) =>
      let r2 : Request := { r1 with path := String.mk p }
      let ev := ValidateCurrentRequestPath r2
      if ev ≠ ClientError.NO_ERROR then (ev, r2, rest2)
      else
        match ExtractComponentsFromPath r2 with
        | (ee, r3) =>
          if ee ≠ ClientError.NO_ERROR then (ee, r3, rest2)
          else
            match ConsumeVersion rest2 with
            | (Except.error e, rest3) => (e, r3, rest3)
            | (Except.ok _, rest3) =>
              match ConsumeCRLF rest3 with
              | (Except.error e, rest4) => (e, r3, rest4)
              | (Except.ok _, rest4) =>
                match ConsumeHeaders r3.headers rest4 with
                | (eh, hs, rest5) => (eh, { r3 with headers := hs }, rest5)

/-- The metadata string built by `Client::SendMetadata` (client.cpp
514-530): status line, `Content-Length`, `Server`, `Connection`
(`keep-alive` while persistent, `close` otherwise), `Content-Type` with
the optional charset parameter, and the blank line. -/
def SendMetadataString (env : Env) (persistent : Bool) (response : String)
    (contentLength : Nat) (mt : MediaType) : String :=
  response ++ "\r\nContent-Length: " ++ toString contentLength ++
  "\r\nServer: " ++ env.config.serverProductName ++
  "\r\nConnection: " ++ (if persistent then "keep-alive" else "close") ++
  "\r\nContent-Type: " ++ mt.completeType ++
  (if mt.includeCharset then ";charset=utf-8\r\n\r\n" else "\r\n\r\n")

/-- Models `Client::SendMetadata` as one `WriteString` of the metadata
string (writes are modelled as succeeding). -/
def SendMetadata (env : Env) (st : ClientState) (response : String)
    (contentLength : Nat) (mt : MediaType) : ClientState :=
  writeString st (SendMetadataString env st.persistentConnection response contentLength mt)

/-- Models `Client::ServeStringRequest` (client.cpp 537-550): metadata
first; the body only when the request method is not `HEAD`. -/
def ServeStringRequest (env : Env) (st : ClientState) (responseLine : String)
    (mt : MediaType) (body : String) : Bool × ClientState :=
  let st1 := SendMetadata env st responseLine body.length mt
  if st1.currentRequest.method = "HEAD" then (true, st1)
  else (true, writeString st1 body)

/-- Models `Client::ServeDefaultPage` (client.cpp 532-535). -/
def ServeDefaultPage (env : Env) (st : ClientState) : Bool × ClientState :=
  ServeStringRequest env st Strings.StatusLineOK MediaTypes.HTML Strings.DefaultWebPage

/-- Models `Client::RecoverErrorBadRequest` (client.cpp 435-444): mark the
connection closing unconditionally, then serve the 400 response whose
body names the violated rule. -/
def RecoverErrorBadRequest (env : Env) (st : ClientState) (message : String) :
    Bool × ClientState :=
  let body := "Malformed request: " ++ message
  let st1 := { st with persistentConnection := false }
  ServeStringRequest env st1 Strings.StatusLineBadRequest MediaTypes.TEXT body

/-- Models `Client::RecoverErrorFileNotFound` (client.cpp 446-449). -/
def RecoverErrorFileNotFound (env : Env) (st : ClientState) : Bool × ClientState :=
  ServeStringRequest env st Strings.StatusLineNotFound MediaTypes.HTML Strings.NotFoundPage

/-- Models `Client::RecoverErrorTooManyRequestsPerThisConnection`
(client.cpp 451-454).  Note that, unlike `RecoverErrorBadRequest`, it
does not mark the connection closing. -/
def RecoverErrorTooManyRequestsPerThisConnection (env : Env) (st : ClientState) :
    Bool × ClientState :=
  ServeStringRequest env st Strings.StatusLineTooManyRequests MediaTypes.HTML
    Strings.TooManyRequestsPage

/-- Models `Client::RecoverError` (client.cpp 392-433).  For
`FILE_NOT_FOUND` the C++ tests
`StringStartsWith(indexPathTarget, currentRequest.path)`, i.e. whether
the requested path is a prefix of the literal "/index.html"; otherwise
it reports the miss (the reporter trace records the requested path; the
C++ context string wraps it in Path=...) and serves the 404 page.  The
bad-request family serves 400 with a per-error diagnostic.  Every error
not listed in the switch falls through to the default: a log line and
`return false` with no response written. -/
def RecoverError (env : Env) (st : ClientState) (error : ClientError) :
    Bool × ClientState :=
  match error with
  | ClientError.FILE_NOT_FOUND =>
    if StringStartsWith "/index.html" st.currentRequest.path then
      ServeDefaultPage env st
    else
      RecoverErrorFileNotFound env
        { st with reports := st.reports ++ [st.currentRequest.path] }
  | ClientError.EMPTY_METHOD =>
    RecoverErrorBadRequest env st Strings.BadRequestsEmptyMethod
  | ClientError.INCORRECT_HEADER_FIELD_NAME =>
    RecoverErrorBadRequest env st "invalid header field-name"
  | ClientError.INCORRECT_HEADER_FIELD_NEWLINE =>
    RecoverErrorBadRequest env st "expected newline (CRLF) after header field"
  | ClientError.INCORRECT_HEADER_FIELD_VALUE =>
    RecoverErrorBadRequest env st "invalid header field-value"
  | ClientError.INCORRECT_METHOD =>
    RecoverErrorBadRequest env st "invalid method: not a token as per RFC 7230 section 3.2.6"
  | ClientError.INCORRECT_PATH =>
    RecoverErrorBadRequest env st "incorrect request-target"
  | ClientError.INCORRECT_CRLF =>
    RecoverErrorBadRequest env st "request-line should end with a newline (CRLF)"
  | ClientError.INCORRECT_VERSION =>
    RecoverErrorBadRequest env st "invalid HTTP version as per RFC 7230 section 2.6"
  | ClientError.INVALID_PATH_EMPTY =>
    RecoverErrorBadRequest env st "request-target was empty"
  | ClientError.INVALID_PATH_NOT_ABSOLUTE =>
    RecoverErrorBadRequest env st "only absolute-path request-target supported"
  | ClientError.TOO_MANY_REQUESTS_PER_THIS_CONNECTION =>
    RecoverErrorTooManyRequestsPerThisConnection env st
  | _ => (false, st)

/-- Case-insensitive string equality, modelling `strcasecmp(a, b) == 0`. -/
def strCaseEq (a b : String) : Bool :=
  a.data.map Utils.charLower = b.data.map Utils.charLower

/-- Models `Client::InterpretConnectionHeaders` (client.cpp 376-385): when
the connection is still persistent and a "connection" header with value
case-insensitively equal to "close" is present, mark the connection
closing. -/
def InterpretConnectionHeaders (st : ClientState) : ClientState :=
  if st.persistentConnection then
    match headersFind st.currentRequest.headers "connection" with
    | some v =>
      if strCaseEq v "close" then { st with persistentConnection := false } else st
    | none => st
  else st

/-- Models `Client::HandleRequest` (client.cpp 344-374).  The quota guard
mirrors the short-circuit of line 347-348: the counter is incremented
only when immediate-close mode is off and the limit is nonzero, and the
request is rejected when the incremented counter exceeds the limit.
Then the file is resolved, its location checked, and on success the
metadata is sent followed by the body unless the method is `HEAD`. -/
def HandleRequest (env : Env) (st0 : ClientState) : ClientError × ClientState :=
  let maxRequests := env.config.securityPolicies.maxRequestsPerConnection
  let quota := !env.config.securityPolicies.maxRequestsCloseImmediately && !(maxRequests = 0 : Bool)
  let st := if quota then { st0 with requestCount := st0.requestCount + 1 } else st0
  if quota ∧ maxRequests < st.requestCount then
    (ClientError.TOO_MANY_REQUESTS_PER_THIS_CONNECTION, st)
  else
    match env.fileResolver st.currentRequest with
    | none => (ClientError.FILE_NOT_FOUND, st)
    | some file =>
      let e := CheckFileLocation env file.path
      if e ≠ ClientError.NO_ERROR then (e, st)
      else
        let st1 := SendMetadata env st Strings.StatusLineOK file.size
          (env.detectMediaType file)
        if st1.currentRequest.method ≠ "HEAD" then
          (ClientError.NO_ERROR, sendFileEvent st1 file.handle file.size)
        else (ClientError.NO_ERROR, st1)

/-- Models `Client::ResetExchangeState` (client.cpp 456-465): the request
is replaced by a fresh one; in immediate-close mode with a nonzero limit
the counter is incremented and, once it meets or exceeds the limit, the
connection is marked closing (again mirroring the short-circuit: no
increment when the limit is zero). -/
def ResetExchangeState (env : Env) (st0 : ClientState) : ClientState :=
  let st := { st0 with currentRequest := Request.empty }
  let maxRequests := env.config.securityPolicies.maxRequestsPerConnection
  if env.config.securityPolicies.maxRequestsCloseImmediately ∧ maxRequests ≠ 0 then
    let st1 := { st with requestCount := st.requestCount + 1 }
    if maxRequests ≤ st1.requestCount then { st1 with persistentConnection := false }
    else st1
  else st

/-- Models `Client::RunMessageExchange` (client.cpp 467-512): run the
parsing stages; on the first error, recover with the request as built so
far; on success, interpret the connection headers, dispatch the request
and recover from any dispatch error. -/
def RunMessageExchange (env : Env) (st0 : ClientState) : Bool × ClientState :=
  match parseRequest env.isPathCharacter st0.input with
  | (e, r, rest) =>
    let st : ClientState := { st0 with currentRequest := r, input := rest }
    if e ≠ ClientError.NO_ERROR then RecoverError env st e
    else
      let st1 := InterpretConnectionHeaders st
      match HandleRequest env st1 with
      | (e2, st2) =>
        if e2 ≠ ClientError.NO_ERROR then RecoverError env st2 e2
        else (true, st2)

/-- Models the session loop of `Client::Entrypoint` (client.cpp 314-319)
after transport setup, bounded by an iteration budget: run one exchange
and reset the per-exchange state while the previous exchange succeeded
and the connection is persistent. -/
def EntrypointLoop (env : Env) : Nat → ClientState → ClientState
  | 0, st => st
  | Nat.succ fuel, st =>
    match RunMessageExchange env st with
    | (success, st1) =>
      let st2 := ResetExchangeState env st1
      if success ∧ st2.persistentConnection then EntrypointLoop env fuel st2 else st2

/-- Initial per-session state on a fresh connection: the given byte
stream, no output, persistent, zero requests served. -/
def initialState (input : List Char) : ClientState :=
  { input := input, output := [], reports := [], persistentConnection := true,
    requestCount := 0, currentRequest := Request.empty }

/-- Specification-side predicate: the output event is a bulk file
transmission (a response body served from a resolved file). -/
def isFileEvent : OutEvent → Bool
  | OutEvent.file _ _ => true
  | OutEvent.str _ => false

/-- Specification-side predicate: the output event is a string write that
begins with the given status line (i.e. response metadata for that
status). -/
def isResponseWith (statusLine : String) : OutEvent → Bool
  | OutEvent.str s => StringStartsWith s statusLine
  | OutEvent.file _ _ => false

/-- Specification-side predicate: the quota guard at the top of
`Client::HandleRequest` rejects the exchange (immediate-close mode off,
nonzero limit, and the incremented counter exceeding the limit). -/
def quotaRejects (env : Env) (st : ClientState) : Prop :=
  (!env.config.securityPolicies.maxRequestsCloseImmediately &&
   !(env.config.securityPolicies.maxRequestsPerConnection = 0 : Bool)) = true ∧
  env.config.securityPolicies.maxRequestsPerConnection < st.requestCount + 1

instance (env : Env) (st : ClientState) : Decidable (quotaRejects env st) := by
  unfold quotaRejects
  infer_instance

/-- Specification-side check used to state `ConsumeVersion` results: all
bytes read by the version loop starting at index `i` pass the per-index
test of client.cpp line 293. -/
def versionBytesOkFrom (i : Nat) (input : List Char) : Bool :=
  (List.range (min input.length (8 - i))).all (fun j => versionByteOk (i + j) (input.getD j ' '))

/-- Specification-side check: the (at most 8) bytes at the head of the
stream pass the version loop's per-index test. -/
def versionBytesOk (input : List Char) : Bool := versionBytesOkFrom 0 input

/-- The grammar-violation errors to which `Client::RecoverError` maps a
400 bad-request response (the cases of the switch at client.cpp 403-422
that call `RecoverErrorBadRequest`). -/
def handledGrammarErrors : List ClientError :=
  [ClientError.EMPTY_METHOD, ClientError.INCORRECT_HEADER_FIELD_NAME,
   ClientError.INCORRECT_HEADER_FIELD_NEWLINE, ClientError.INCORRECT_HEADER_FIELD_VALUE,
   ClientError.INCORRECT_METHOD, ClientError.INCORRECT_PATH, ClientError.INCORRECT_CRLF,
   ClientError.INCORRECT_VERSION, ClientError.INVALID_PATH_EMPTY,
   ClientError.INVALID_PATH_NOT_ABSOLUTE]

/-- The diagnostic that `Client::RecoverError` passes to
`RecoverErrorBadRequest` for each handled grammar-violation error
(client.cpp 403-422); the empty string for every other error. -/
def grammarErrorMessage : ClientError → String
  | ClientError.EMPTY_METHOD => Strings.BadRequestsEmptyMethod
  | ClientError.INCORRECT_HEADER_FIELD_NAME => "invalid header field-name"
  | ClientError.INCORRECT_HEADER_FIELD_NEWLINE => "expected newline (CRLF) after header field"
  | ClientError.INCORRECT_HEADER_FIELD_VALUE => "invalid header field-value"
  | ClientError.INCORRECT_METHOD => "invalid method: not a token as per RFC 7230 section 3.2.6"
  | ClientError.INCORRECT_PATH => "incorrect request-target"
  | ClientError.INCORRECT_CRLF => "request-line should end with a newline (CRLF)"
  | ClientError.INCORRECT_VERSION => "invalid HTTP version as per RFC 7230 section 2.6"
  | ClientError.INVALID_PATH_EMPTY => "request-target was empty"
  | ClientError.INVALID_PATH_NOT_ABSOLUTE => "only absolute-path request-target supported"
  | _ => ""

/-- A plain demonstration environment: root directory `/r`, resolver
finding a 3-byte file inside the root, identity canonicalization, no
request quota. -/
def plainEnv : Env :=
  { config := { rootDirectory := "/r", serverProductName := "ws",
                securityPolicies := { maxRequestsPerConnection := 0,
                                      maxRequestsCloseImmediately := false } },
    realpath := fun p => some p,
    fileResolver := fun _ => some { path := "/r/x", size := 3, handle := 7 },
    detectMediaType := fun _ => { completeType := "text/html", includeCharset := true },
    isPathCharacter := fun c => c ≠ ' ' }

/-- Demonstration environment for the request quota: like `plainEnv` but
with `max_requests_per_connection = 2` and
`max_requests_close_immediately = false`. -/
def quotaEnv : Env :=
  { plainEnv with
    config := { plainEnv.config with
      securityPolicies := { maxRequestsPerConnection := 2,
                            maxRequestsCloseImmediately := false } } }

/-- Demonstration environment with immediate-close mode on and a zero
(unlimited) request cap. -/
def closeImmediateZeroEnv : Env :=
  { plainEnv with
    config := { plainEnv.config with
      securityPolicies := { maxRequestsPerConnection := 0,
                            maxRequestsCloseImmediately := true } } }

/-- The bytes of one well-formed request for `/x` with no headers. -/
def wellFormedRequestBytes : List Char := "GET /x HTTP/1.1\r\n\r\n".data

/-- Four identical well-formed requests back to back on one connection. -/
def fourRequestsBytes : List Char :=
  wellFormedRequestBytes ++ wellFormedRequestBytes ++ wellFormedRequestBytes ++
  wellFormedRequestBytes

/-- Environment whose file resolver yields a file whose canonical path
escapes the configured root directory (a symlink pointing outside
`/var/www`). -/
def escapeEnv : Env :=
  { config := { rootDirectory := "/var/www", serverProductName := "ws",
                securityPolicies := { maxRequestsPerConnection := 0,
                                      maxRequestsCloseImmediately := false } },
    realpath := fun _ => some "/etc/passwd",
    fileResolver := fun _ => some { path := "/var/www/link", size := 5, handle := 1 },
    detectMediaType := fun _ => { completeType := "text/html", includeCharset := true },
    isPathCharacter := fun c => c ≠ ' ' }
/-- On success, the field-name loop consumed at least the terminating
colon, so the remainder is strictly shorter. -/
theorem ConsumeHeaderFieldName_ok_length :
    ∀ (input dest nameTail rest : List Char),
    ConsumeHeaderFieldName dest input = (Except.ok nameTail, rest) →
    rest.length < input.length := by
  intro input
  induction input with
  | nil =>
    intro dest nameTail rest h
    simp [ConsumeHeaderFieldName] at h
  | cons c cs ih =>
    intro dest nameTail rest h
    simp only [ConsumeHeaderFieldName] at h
    by_cases hc : c = ':'
    · simp only [hc, if_pos rfl, Prod.mk.injEq, Except.ok.injEq] at h
      obtain ⟨_h1, rfl⟩ := h
      simp
    · by_cases ht : Utils.IsTokenCharacter c
      · simp only [hc, ht, if_neg, if_pos, if_true, if_false] at h
        have := ih _ _ _ h
        simp only [List.length_cons]
        omega
      · simp [hc, ht] at h

/-- On success, the optional-whitespace loop consumed at least the
returned character. -/
theorem ConsumeOptionalWhitespace_ok_length :
    ∀ (input : List Char) (c : Char) (rest : List Char),
    ConsumeOptionalWhitespace input = (Except.ok c, rest) →
    rest.length < input.length := by
  intro input
  induction input with
  | nil =>
    intro c rest h
    simp [ConsumeOptionalWhitespace] at h
  | cons x xs ih =>
    intro c rest h
    simp only [ConsumeOptionalWhitespace] at h
    by_cases hx : (x = ' ' || x = '\t') = true
    · simp only [hx, if_pos rfl] at h
      have := ih _ _ h
      simp only [List.length_cons]
      omega
    · simp only [hx, if_neg, Prod.mk.injEq, Except.ok.injEq] at h
      obtain ⟨_h1, rfl⟩ := h
      simp

/-- On success, the field-value loop consumed at least the CRLF
terminator, so the remainder is strictly shorter. -/
theorem ConsumeHeaderFieldValue_ok_length :
    ∀ (input dest fieldValue rest : List Char),
    ConsumeHeaderFieldValue dest input = (Except.ok fieldValue, rest) →
    rest.length < input.length := by
  intro input
  induction input with
  | nil =>
    intro dest fieldValue rest h
    simp [ConsumeHeaderFieldValue] at h
  | cons c cs ih =>
    intro dest fieldValue rest h
    simp only [ConsumeHeaderFieldValue] at h
    by_cases hc : c = '\r'
    · subst hc
      cases cs with
      | nil => simp at h
      | cons c2 cs2 =>
        simp only [if_pos rfl] at h
        by_cases h2 : c2 = '\n'
        · simp only [h2, if_pos rfl, Prod.mk.injEq, Except.ok.injEq] at h
          obtain ⟨_hnv, rfl⟩ := h
          simp only [List.length_cons]
          omega
        · simp [h2] at h
    · by_cases hv : isFieldValueChar c
      · simp only [hc, hv, if_neg, if_pos, if_true, if_false] at h
        have := ih _ _ _ h
        simp only [List.length_cons]
        omega
      · simp [hc, hv] at h

/-- On success, one whole header field consumes at least one character of
the stream. -/
theorem ConsumeHeaderField_ok_length
    (firstCharacter : Char) (input : List Char) (nv : String × String)
    (rest : List Char)
    (h : ConsumeHeaderField firstCharacter input = (Except.ok nv, rest)) :
    rest.length < input.length := by
  unfold ConsumeHeaderField at h
  cases hn : ConsumeHeaderFieldName [] input with
  | mk res1 rest1 =>
    cases res1 with
    | error e => simp [hn] at h
    | ok nameTail =>
      simp only [hn] at h
      cases hw : ConsumeOptionalWhitespace rest1 with
      | mk res2 rest2 =>
        cases res2 with
        | error e => simp [hw] at h
        | ok c =>
          simp only [hw] at h
          cases hv : ConsumeHeaderFieldValue [c] rest2 with
          | mk res3 rest3 =>
            cases res3 with
            | error e => simp [hv] at h
            | ok fieldValue =>
              simp only [hv, Prod.mk.injEq, Except.ok.injEq] at h
              obtain ⟨_hnv, rfl⟩ := h
              have l1 := ConsumeHeaderFieldName_ok_length input [] nameTail rest1 hn
              have l2 := ConsumeOptionalWhitespace_ok_length rest1 c rest2 hw
              have l3 := ConsumeHeaderFieldValue_ok_length rest2 [c] fieldValue rest3 hv
              omega


/-- C1: for every request reaching dispatch (the quota guard does not
reject it), if the file resolver returns a file whose canonicalization
fails or whose canonical path is not prefixed by the configured root
directory, then `HandleRequest` returns one of the two location errors
and its output trace is exactly the caller's — no response metadata and
no body byte of that file is ever written. -/
theorem c1_location_error_precedes_output
    (env : Env) (st : ClientState) (file : ServedFile)
    (hres : env.fileResolver st.currentRequest = some file)
    (hloc : ∀ canon, env.realpath file.path = some canon →
        StringStartsWith canon env.config.rootDirectory = false)
    (hquota : ¬ quotaRejects env st) :
    ((HandleRequest env st).1 = ClientError.CHECK_FILE_LOCATION_VERIFICATION_FAILURE ∨
     (HandleRequest env st).1 = ClientError.CHECK_FILE_LOCATION_OUTSIDE_ROOT_DIRECTORY) ∧
    (HandleRequest env st).2.output = st.output := by
  by_cases hq : (!env.config.securityPolicies.maxRequestsCloseImmediately &&
      !(env.config.securityPolicies.maxRequestsPerConnection = 0 : Bool)) = true
  · have hlt : ¬ env.config.securityPolicies.maxRequestsPerConnection < st.requestCount + 1 :=
      fun hl => hquota ⟨hq, hl⟩
    cases hrp : env.realpath file.path with
    | none =>
      simp [HandleRequest, hq, hlt, hres, CheckFileLocation, hrp]
    | some canon =>
      have hsw := hloc canon hrp
      simp [HandleRequest, hq, hlt, hres, CheckFileLocation, hrp, hsw]
  · cases hrp : env.realpath file.path with
    | none =>
      simp [HandleRequest, hq, hres, CheckFileLocation, hrp]
    | some canon =>
      have hsw := hloc canon hrp
      simp [HandleRequest, hq, hres, CheckFileLocation, hrp, hsw]

/-- Witness for C1: in `escapeEnv` the resolved file's canonical path is
`/etc/passwd`, outside the root `/var/www`; `HandleRequest` returns a
location error and writes nothing. -/
theorem c1_witness :
    ((HandleRequest escapeEnv (initialState [])).1 =
       ClientError.CHECK_FILE_LOCATION_VERIFICATION_FAILURE ∨
     (HandleRequest escapeEnv (initialState [])).1 =
       ClientError.CHECK_FILE_LOCATION_OUTSIDE_ROOT_DIRECTORY) ∧
    (HandleRequest escapeEnv (initialState [])).2.output = (initialState []).output :=
  c1_location_error_precedes_output escapeEnv (initialState [])
    { path := "/var/www/link", size := 5, handle := 1 } rfl
    (fun canon h => by injection h with h2; subst h2; decide)
    (by decide)

/-- C2 counterexample: with `max_requests_per_connection = 2` and
`max_requests_close_immediately = false`, after three exchanges the
connection is still persistent and the fourth request is still unread in
the stream; letting the loop continue, the fourth request is read and
also answered with 429 (two 429 responses in total).  This refutes the
claim that the session loop terminates after the third request's 429
instead of reading a fourth request. -/
theorem c2_counterexample :
    (EntrypointLoop quotaEnv 3 (initialState fourRequestsBytes)).persistentConnection = true ∧
    (EntrypointLoop quotaEnv 3 (initialState fourRequestsBytes)).input = wellFormedRequestBytes ∧
    (EntrypointLoop quotaEnv 4 (initialState fourRequestsBytes)).input = [] ∧
    (EntrypointLoop quotaEnv 4 (initialState fourRequestsBytes)).output.countP
      (isResponseWith Strings.StatusLineTooManyRequests) = 2 := by
  decide

/-- C2 amended: the first two well-formed requests on the connection are
served normally (two 200 responses with two file bodies); the third
request receives a 429 response, but the connection does not close — the
keep-alive flag stays set and the session loop reads a fourth request,
which receives a 429 as well. -/
theorem c2_first_two_served_third_429_connection_stays_open :
    (EntrypointLoop quotaEnv 2 (initialState fourRequestsBytes)).output.countP
      (isResponseWith Strings.StatusLineOK) = 2 ∧
    (EntrypointLoop quotaEnv 2 (initialState fourRequestsBytes)).output.countP
      isFileEvent = 2 ∧
    (EntrypointLoop quotaEnv 3 (initialState fourRequestsBytes)).output.countP
      (isResponseWith Strings.StatusLineTooManyRequests) = 1 ∧
    (EntrypointLoop quotaEnv 3 (initialState fourRequestsBytes)).persistentConnection = true ∧
    (EntrypointLoop quotaEnv 4 (initialState fourRequestsBytes)).input = [] ∧
    (EntrypointLoop quotaEnv 4 (initialState fourRequestsBytes)).output.countP
      (isResponseWith Strings.StatusLineTooManyRequests) = 2 := by
  decide

/-- C3 counterexample: `RecoverError` on the grammar-violation error
`INVALID_PATH_MULTIPLE_QUESTION_MARKS` hits the default branch of the
switch: it returns `false` with the state untouched — no 400 response is
written (the output stays empty) and the connection is not marked
non-persistent. -/
theorem c3_counterexample :
    RecoverError plainEnv (initialState [])
      ClientError.INVALID_PATH_MULTIPLE_QUESTION_MARKS = (false, initialState []) ∧
    (initialState []).persistentConnection = true ∧
    (initialState []).output = [] :=
  ⟨rfl, rfl, rfl⟩

/-- C3 amended: for every grammar-violation error in the handled list
(malformed method, path, version, header and CRLF cases of the switch),
`RecoverError` marks the connection non-persistent and emits a 400
response whose body names the violated rule (the diagnostics are
pairwise distinct on that list); but the two grammar-violation errors
`INVALID_PATH_MULTIPLE_QUESTION_MARKS` and `UNEXPECTED_CR_IN_FIELD_NAME`
are not handled: for them `RecoverError` writes no response and returns
`false`, so the session loop terminates without a 400. -/
theorem c3_handled_grammar_errors_get_400
    (env : Env) (st : ClientState) (e : ClientError)
    (he : e ∈ handledGrammarErrors) :
    (RecoverError env st e).2.persistentConnection = false ∧
    (RecoverError env st e).2.output =
      st.output ++
      [OutEvent.str (SendMetadataString env false Strings.StatusLineBadRequest
         ("Malformed request: " ++ grammarErrorMessage e).length MediaTypes.TEXT)] ++
      (if st.currentRequest.method = "HEAD" then []
       else [OutEvent.str ("Malformed request: " ++ grammarErrorMessage e)]) ∧
    (RecoverError env st e).1 = true ∧
    (∀ e2 ∈ handledGrammarErrors, grammarErrorMessage e = grammarErrorMessage e2 → e = e2) ∧
    RecoverError env st ClientError.INVALID_PATH_MULTIPLE_QUESTION_MARKS = (false, st) ∧
    RecoverError env st ClientError.UNEXPECTED_CR_IN_FIELD_NAME = (false, st) := by
  have hdist : ∀ e2 ∈ handledGrammarErrors, grammarErrorMessage e = grammarErrorMessage e2 → e = e2 := by
    fin_cases he <;> (intro e2 he2 heq; fin_cases he2 <;> first | rfl | (exfalso; revert heq; decide))
  refine ⟨?_, ?_, ?_, hdist, rfl, rfl⟩ <;>
    (fin_cases he <;>
      (by_cases hm : st.currentRequest.method = "HEAD" <;>
        simp [RecoverError, RecoverErrorBadRequest, ServeStringRequest, SendMetadata,
              writeString, grammarErrorMessage, Strings.BadRequestsEmptyMethod, hm]))

/-- Witness for C3: instantiating the amended theorem at the concrete
error `INCORRECT_METHOD` in `plainEnv`. -/
theorem c3_witness :
    (RecoverError plainEnv (initialState []) ClientError.INCORRECT_METHOD).2.persistentConnection = false ∧
    (RecoverError plainEnv (initialState []) ClientError.INCORRECT_METHOD).1 = true :=
  ⟨(c3_handled_grammar_errors_get_400 plainEnv (initialState [])
      ClientError.INCORRECT_METHOD (by decide)).1,
   (c3_handled_grammar_errors_get_400 plainEnv (initialState [])
      ClientError.INCORRECT_METHOD (by decide)).2.2.1⟩

/-- C4 (code bug): evaluating the header parser at the failing inputs.
For the field `x: a b c` (accumulated value `a b c`), the stored value is
the empty string — the trim locates the first space anywhere in the value
and cuts one character before it — and for the field `x: abc ` (accumulated
value `abc `, only trailing whitespace) the stored value is `ab`, not
`abc`.  The claim that only trailing whitespace is removed and interior
whitespace is kept fails on both. -/
theorem c4_trim_truncates_at_first_interior_whitespace :
    ConsumeHeaders [] ("x: a b c" ++ "\r\n\r\n").data =
      (ClientError.NO_ERROR, [("x", "")], []) ∧
    ConsumeHeaders [] ("x: abc " ++ "\r\n\r\n").data =
      (ClientError.NO_ERROR, [("x", "ab")], []) ∧
    trimHeaderValue "a b c".data = [] ∧
    trimHeaderValue "abc ".data = "ab".data ∧
    trimHeaderValue "abc".data = "abc".data := by
  decide

/-- C5 (code bug): evaluating `RecoverError` on `FILE_NOT_FOUND` with the
requested path `/i`.  Because the C++ passes the arguments to
`StringStartsWith` in the order (literal "/index.html", requested path),
the test asks whether the requested path is a prefix of "/index.html";
`/i` is such a prefix, so the built-in default page is served and no miss
is reported — although `/i` is neither `/` nor `/index.html`, for which
the claim mandates the 404 page plus an error report. -/
theorem c5_default_page_served_for_prefix_path :
    ¬("/i" = "/" ∨ "/i" = "/index.html") ∧
    StringStartsWith "/index.html" "/i" = true ∧
    (RecoverError plainEnv
        { initialState [] with currentRequest := { method := "GET", path := "/i" } }
        ClientError.FILE_NOT_FOUND).2.output =
      [OutEvent.str (SendMetadataString plainEnv true Strings.StatusLineOK
         Strings.DefaultWebPage.length MediaTypes.HTML),
       OutEvent.str Strings.DefaultWebPage] ∧
    (RecoverError plainEnv
        { initialState [] with currentRequest := { method := "GET", path := "/i" } }
        ClientError.FILE_NOT_FOUND).2.reports = [] := by
  refine ⟨by decide, by decide, ?_, rfl⟩
  rfl

/-- Unfolding of the per-index version check over a cons cell while the
index is still below 8. -/
theorem versionBytesOkFrom_cons (i : Nat) (hi : i < 8) (c : Char) (rest : List Char) :
    versionBytesOkFrom i (c :: rest) =
      (versionByteOk i c && versionBytesOkFrom (i + 1) rest) := by
  unfold versionBytesOkFrom
  have hmin : min (c :: rest).length (8 - i) = min rest.length (8 - (i + 1)) + 1 := by
    simp only [List.length_cons]
    omega
  rw [hmin, List.range_succ_eq_map]
  simp only [List.all_cons, List.all_map, Function.comp_def, List.getD_cons_zero,
             List.getD_cons_succ, Nat.add_zero, Nat.succ_eq_add_one]
  have hfun : (fun j => versionByteOk (i + (j + 1)) (rest.getD j ' ')) =
      (fun j => versionByteOk ((i + 1) + j) (rest.getD j ' ')) := by
    funext j
    congr 1
    omega
  rw [hfun]

/-- Characterization of the `ConsumeVersion` loop from an arbitrary index:
while all read bytes pass the per-index test, the loop succeeds once 8
bytes are available (dropping exactly the version bytes) and fails with
the read error when the stream ends early; a failing byte yields the
version-grammar error. -/
theorem ConsumeVersionGo_spec :
    ∀ (input : List Char) (i : Nat), i ≤ 8 →
    (versionBytesOkFrom i input = true →
       (8 - i ≤ input.length →
          ConsumeVersionGo input i = (Except.ok (), input.drop (8 - i))) ∧
       (input.length < 8 - i →
          ConsumeVersionGo input i = (Except.error ClientError.FAILED_READ_VERSION, []))) ∧
    (versionBytesOkFrom i input = false →
       (ConsumeVersionGo input i).1 = Except.error ClientError.INCORRECT_VERSION) := by
  intro input
  induction input with
  | nil =>
    intro i hi
    constructor
    · intro _
      constructor
      · intro h8
        have : i = 8 := by simp at h8; omega
        subst this
        simp [ConsumeVersionGo]
      · intro hlen
        have : i < 8 := by simp at hlen; omega
        simp [ConsumeVersionGo, this]
    · intro hbad
      exfalso
      have : versionBytesOkFrom i [] = true := by
        unfold versionBytesOkFrom
        simp
      rw [this] at hbad
      exact Bool.true_eq_false.mp hbad
  | cons c rest ih =>
    intro i hi
    by_cases hlt : i < 8
    · have hcons := versionBytesOkFrom_cons i hlt c rest
      by_cases hbyte : versionByteOk i c = true
      · have hgo : ConsumeVersionGo (c :: rest) i = ConsumeVersionGo rest (i + 1) := by
          simp [ConsumeVersionGo, hlt, hbyte]
        have ihnext := ih (i + 1) (by omega)
        constructor
        · intro hok
          have hnext : versionBytesOkFrom (i + 1) rest = true := by
            rw [hcons, hbyte] at hok
            simpa using hok
          constructor
          · intro h8
            have h8next : 8 - (i + 1) ≤ rest.length := by
              simp only [List.length_cons] at h8
              omega
            rw [hgo, (ihnext.1 hnext).1 h8next]
            have hdrop : (c :: rest).drop (8 - i) = rest.drop (8 - (i + 1)) := by
              have : 8 - i = (8 - (i + 1)) + 1 := by omega
              rw [this]
              rfl
            rw [hdrop]
          · intro hlen
            have hlennext : rest.length < 8 - (i + 1) := by
              simp only [List.length_cons] at hlen
              omega
            rw [hgo, (ihnext.1 hnext).2 hlennext]
        · intro hbad
          rw [hcons, hbyte] at hbad
          have hnextbad : versionBytesOkFrom (i + 1) rest = false := by simpa using hbad
          rw [hgo]
          exact ihnext.2 hnextbad
      · have hbyte2 : versionByteOk i c = false := by
          cases hb : versionByteOk i c
          · rfl
          · exact absurd hb hbyte
        constructor
        · intro hok
          exfalso
          rw [hcons, hbyte2] at hok
          simp at hok
        · intro _
          simp [ConsumeVersionGo, hlt, hbyte2]
    · have hi8 : i = 8 := by omega
      subst hi8
      constructor
      · intro _
        constructor
        · intro _
          simp [ConsumeVersionGo]
        · intro hlen
          omega
      · intro hbad
        exfalso
        have : versionBytesOkFrom 8 (c :: rest) = true := by
          unfold versionBytesOkFrom
          simp
        rw [this] at hbad
        exact Bool.true_eq_false.mp hbad

/-- At index 8 the version loop accepts immediately without reading. -/
theorem ConsumeVersionGo_eight (input : List Char) :
    ConsumeVersionGo input 8 = (Except.ok (), input) := by
  cases input <;> simp [ConsumeVersionGo]

/-- For a stream holding at least 8 bytes, the version bytes pass the
loop's test exactly when the first seven bytes are the literal `HTTP/1.`
and the eighth is a decimal digit. -/
theorem versionBytesOk_explicit (input : List Char) (h : 8 ≤ input.length) :
    versionBytesOk input = true ↔
      (input.take 7 = versionExpectedChars ∧
       Utils.IsNumericCharacter (input.getD 7 ' ') = true) := by
  rcases input with _ | ⟨c0, _ | ⟨c1, _ | ⟨c2, _ | ⟨c3, _ | ⟨c4, _ | ⟨c5, _ | ⟨c6, _ | ⟨c7, rest⟩⟩⟩⟩⟩⟩⟩⟩ <;>
    simp only [List.length_nil, List.length_cons] at h <;> try omega
  have h8 : versionBytesOkFrom 8 rest = true := by
    unfold versionBytesOkFrom
    simp
  show versionBytesOkFrom 0 _ = true ↔ _
  rw [versionBytesOkFrom_cons 0 (by omega), versionBytesOkFrom_cons 1 (by omega),
      versionBytesOkFrom_cons 2 (by omega), versionBytesOkFrom_cons 3 (by omega),
      versionBytesOkFrom_cons 4 (by omega), versionBytesOkFrom_cons 5 (by omega),
      versionBytesOkFrom_cons 6 (by omega), versionBytesOkFrom_cons 7 (by omega), h8]
  simp only [versionByteOk, versionExpectedChars, Bool.and_true, Bool.and_eq_true,
             decide_eq_true_eq, List.take, List.cons.injEq, List.getD_cons_succ,
             List.getD_cons_zero, and_true]
  norm_num
  tauto

/-- C6 counterexample: on the 7-byte stream `HTTP/1.` the stream ends
before 8 bytes are read and `ConsumeVersion` fails with
`FAILED_READ_VERSION`, not with `INCORRECT_VERSION` as the claim
states for premature stream end. -/
theorem c6_counterexample :
    ConsumeVersion "HTTP/1.".data = (Except.error ClientError.FAILED_READ_VERSION, []) ∧
    ClientError.FAILED_READ_VERSION ≠ ClientError.INCORRECT_VERSION :=
  ⟨rfl, by decide⟩

/-- C6 amended: `ConsumeVersion` reads at most 8 bytes; it succeeds
exactly on streams starting with the literal `HTTP/1.` followed by a
decimal digit (consuming exactly those 8 bytes, the digit not being
retained — the loop returns only the unread remainder); a byte failing
the per-index test yields `INCORRECT_VERSION`; a stream that ends before
8 bytes while all read bytes passed the test yields
`FAILED_READ_VERSION`. -/
theorem c6_version_characterization :
    (∀ (d : Char) (rest : List Char), Utils.IsNumericCharacter d = true →
       ConsumeVersion (versionExpectedChars ++ d :: rest) = (Except.ok (), rest)) ∧
    (∀ (d : Char) (rest : List Char), Utils.IsNumericCharacter d = false →
       ConsumeVersion (versionExpectedChars ++ d :: rest) =
         (Except.error ClientError.INCORRECT_VERSION, rest)) ∧
    (∀ input : List Char, (ConsumeVersion input).1 = Except.ok () →
       8 ≤ input.length ∧ input.take 7 = versionExpectedChars ∧
       Utils.IsNumericCharacter (input.getD 7 ' ') = true ∧
       (ConsumeVersion input).2 = input.drop 8) ∧
    (∀ input : List Char, input.length < 8 → versionBytesOk input = true →
       ConsumeVersion input = (Except.error ClientError.FAILED_READ_VERSION, [])) ∧
    (∀ input : List Char, versionBytesOk input = false →
       (ConsumeVersion input).1 = Except.error ClientError.INCORRECT_VERSION) := by
  have hpre : ∀ (d : Char) (rest : List Char),
      ConsumeVersion (versionExpectedChars ++ d :: rest) =
        if Utils.IsNumericCharacter d then ConsumeVersionGo rest 8
        else (Except.error ClientError.INCORRECT_VERSION, rest) := fun d rest => rfl
  refine ⟨?_, ?_, ?_, ?_, ?_⟩
  · intro d rest hd
    rw [hpre, hd, if_pos rfl, ConsumeVersionGo_eight]
  · intro d rest hd
    rw [hpre, hd]
    simp
  · intro input hok
    have H := ConsumeVersionGo_spec input 0 (by omega)
    by_cases hv : versionBytesOk input = true
    · by_cases hlen : 8 ≤ input.length
      · have heq := (H.1 hv).1 (by simpa using hlen)
        have hexp := (versionBytesOk_explicit input hlen).mp hv
        refine ⟨hlen, hexp.1, hexp.2, ?_⟩
        show (ConsumeVersionGo input 0).2 = input.drop 8
        rw [heq]
      · have hfail := (H.1 hv).2 (by simp; omega)
        exfalso
        have : (ConsumeVersionGo input 0).1 = Except.ok () := hok
        rw [hfail] at this
        simp at this
    · have hbool : versionBytesOk input = false := by
        cases hb : versionBytesOk input
        · rfl
        · exact absurd hb hv
      exfalso
      have : (ConsumeVersionGo input 0).1 = Except.ok () := hok
      rw [H.2 hbool] at this
      simp at this
  · intro input hlen hv
    have H := ConsumeVersionGo_spec input 0 (by omega)
    have := (H.1 hv).2 (by simpa using hlen)
    exact this
  · intro input hv
    exact (ConsumeVersionGo_spec input 0 (by omega)).2 hv

/-- Witness for C6: the characterization applied to the accepted stream
`HTTP/1.1`, the mismatching stream `HTTP/1.X` and the truncated stream
`HTTP/1.`. -/
theorem c6_witness :
    ConsumeVersion "HTTP/1.1\r\n".data = (Except.ok (), "\r\n".data) ∧
    ConsumeVersion "HTTP/1.X".data = (Except.error ClientError.INCORRECT_VERSION, []) ∧
    ConsumeVersion "HTTP/1.".data = (Except.error ClientError.FAILED_READ_VERSION, []) :=
  ⟨c6_version_characterization.1 '1' "\r\n".data (by decide),
   c6_version_characterization.2.1 'X' [] (by decide),
   c6_version_characterization.2.2.2.1 "HTTP/1.".data (by decide) (by decide)⟩

/-- C7 counterexample: a request block with two header fields both named
`a` parses successfully and the mapping holds `1` — the value of the
first occurrence — not `2`, the value of the later one. -/
theorem c7_counterexample :
    ConsumeHeaders [] "a:1\r\na:2\r\n\r\n".data =
      (ClientError.NO_ERROR, [("a", "1")], []) ∧
    headersFind [("a", "1")] "a" = some "1" ∧
    ("1" : String) ≠ "2" := by
  refine ⟨by decide, by decide, by decide⟩

/-- C7 amended: duplicate field-names keep the value of the first
occurrence.  `std::map::insert` never overwrites: inserting an already
present key leaves the stored value unchanged, while a fresh key is
stored with its value; hence the duplicate-field request stores the
first value. -/
theorem c7_duplicate_field_names_keep_first_value :
    (∀ (hs : Headers) (k v w : String), headersFind hs k = some w →
       headersFind (headersInsert hs k v) k = some w) ∧
    (∀ (hs : Headers) (k v : String), headersFind hs k = none →
       headersFind (headersInsert hs k v) k = some v) ∧
    ConsumeHeaders [] "a:1\r\na:2\r\n\r\n".data =
      (ClientError.NO_ERROR, [("a", "1")], []) := by
  refine ⟨?_, ?_, by decide⟩
  · intro hs k v w h
    unfold headersInsert
    have hsome : (List.find? (fun p => p.1 = k) hs).isSome = true := by
      unfold headersFind at h
      cases hf : List.find? (fun p => p.1 = k) hs with
      | none => rw [hf] at h; simp at h
      | some p => simp
    rw [if_pos hsome]
    exact h
  · intro hs k v h
    have hnone : List.find? (fun p => decide (p.1 = k)) hs = none := by
      unfold headersFind at h
      cases hf : List.find? (fun p => decide (p.1 = k)) hs with
      | none => rfl
      | some p => rw [hf] at h; simp at h
    clear h
    unfold headersInsert
    rw [hnone]
    simp only [Option.isSome_none, Bool.false_eq_true, if_false]
    unfold headersFind
    induction hs with
    | nil => simp [List.find?]
    | cons p tl ih =>
      by_cases hk : p.1 = k
      · rw [List.find?_cons] at hnone
        simp [hk] at hnone
      · have htl : List.find? (fun q => decide (q.1 = k)) tl = none := by
          rw [List.find?_cons] at hnone
          simpa [hk] using hnone
        rw [List.cons_append, List.find?_cons]
        simpa [hk] using ih htl

/-- Witness for C7: the amended theorem applied at a concrete mapping:
inserting a duplicate of `a` keeps the stored value `1`, and inserting
the fresh key `b` stores its value. -/
theorem c7_witness :
    headersFind (headersInsert [("a", "1")] "a" "2") "a" = some "1" ∧
    headersFind (headersInsert [("a", "1")] "b" "3") "b" = some "3" :=
  ⟨c7_duplicate_field_names_keep_first_value.1 [("a", "1")] "a" "2" "1" (by decide),
   c7_duplicate_field_names_keep_first_value.2.1 [("a", "1")] "b" "3" (by decide)⟩

/-- Running the method loop over accumulated valid token characters up to
a space: the buffer and the valid characters are returned (or
`EMPTY_METHOD` when both are empty). -/
theorem ConsumeMethodAux_valid (cs : List Char) :
    ∀ (buffer rest : List Char), (∀ c ∈ cs, Utils.IsTokenCharacter c = true) →
    ConsumeMethodAux buffer (cs ++ ' ' :: rest) =
      (if buffer ++ cs = [] then (Except.error ClientError.EMPTY_METHOD, rest)
       else (Except.ok (buffer ++ cs), rest)) := by
  induction cs with
  | nil =>
    intro buffer rest _
    simp [ConsumeMethodAux]
  | cons c cs ih =>
    intro buffer rest hval
    have hc : Utils.IsTokenCharacter c = true := hval c (by simp)
    have hcs : ∀ x ∈ cs, Utils.IsTokenCharacter x = true := fun x hx => hval x (by simp [hx])
    have hcsp : c ≠ ' ' := by
      intro he
      rw [he] at hc
      revert hc
      decide
    show ConsumeMethodAux buffer (c :: (cs ++ ' ' :: rest)) = _
    rw [ConsumeMethodAux, if_neg hcsp, hc, if_pos rfl, ih (buffer ++ [c]) rest hcs]
    simp [List.append_assoc]

/-- Running the method loop over accumulated valid token characters up to
a character that is neither a space nor a token character: the
method-grammar error is returned. -/
theorem ConsumeMethodAux_invalid (cs : List Char) :
    ∀ (buffer : List Char) (c : Char) (rest : List Char),
    (∀ x ∈ cs, Utils.IsTokenCharacter x = true) →
    Utils.IsTokenCharacter c = false → c ≠ ' ' →
    ConsumeMethodAux buffer (cs ++ c :: rest) =
      (Except.error ClientError.INCORRECT_METHOD, rest) := by
  induction cs with
  | nil =>
    intro buffer c rest _ hc hcsp
    show ConsumeMethodAux buffer (c :: rest) = _
    rw [ConsumeMethodAux, if_neg hcsp, hc]
    simp
  | cons x xs ih =>
    intro buffer c rest hval hc hcsp
    have hx : Utils.IsTokenCharacter x = true := hval x (by simp)
    have hxs : ∀ y ∈ xs, Utils.IsTokenCharacter y = true := fun y hy => hval y (by simp [hy])
    have hxsp : x ≠ ' ' := by
      intro he
      rw [he] at hx
      revert hx
      decide
    show ConsumeMethodAux buffer (x :: (xs ++ c :: rest)) = _
    rw [ConsumeMethodAux, if_neg hxsp, hx, if_pos rfl]
    exact ih (buffer ++ [x]) c rest hxs hc hcsp

/-- C8: `ConsumeMethod` reads until a space.  A space as the first byte
fails with `EMPTY_METHOD`; a run of token characters up to a space is
accepted and stored verbatim; a non-token, non-space byte anywhere before
the space fails with `INCORRECT_METHOD`; in particular the input
`G@T / HTTP/1.1\r\n\r\n` fails with the method-grammar error. -/
theorem c8_consume_method_grammar :
    (∀ rest : List Char,
       ConsumeMethod (' ' :: rest) = (Except.error ClientError.EMPTY_METHOD, rest)) ∧
    (∀ (cs rest : List Char), (∀ c ∈ cs, Utils.IsTokenCharacter c = true) → cs ≠ [] →
       ConsumeMethod (cs ++ ' ' :: rest) = (Except.ok cs, rest)) ∧
    (∀ (cs : List Char) (c : Char) (rest : List Char),
       (∀ x ∈ cs, Utils.IsTokenCharacter x = true) →
       Utils.IsTokenCharacter c = false → c ≠ ' ' →
       ConsumeMethod (cs ++ c :: rest) = (Except.error ClientError.INCORRECT_METHOD, rest)) ∧
    ConsumeMethod "G@T / HTTP/1.1\r\n\r\n".data =
      (Except.error ClientError.INCORRECT_METHOD, "T / HTTP/1.1\r\n\r\n".data) := by
  refine ⟨fun rest => rfl, ?_, ?_, rfl⟩
  · intro cs rest hval hne
    rw [ConsumeMethod, ConsumeMethodAux_valid cs [] rest hval]
    simp [hne]
  · intro cs c rest hval hc hcsp
    exact ConsumeMethodAux_invalid cs [] c rest hval hc hcsp

/-- Witness for C8: the theorem applied to an empty method, the verbatim
method `GET`, and the non-token byte `@` after `G`. -/
theorem c8_witness :
    ConsumeMethod (' ' :: "x".data) = (Except.error ClientError.EMPTY_METHOD, "x".data) ∧
    ConsumeMethod ("GET".data ++ ' ' :: "/".data) = (Except.ok "GET".data, "/".data) ∧
    ConsumeMethod ("G".data ++ '@' :: "T".data) =
      (Except.error ClientError.INCORRECT_METHOD, "T".data) :=
  ⟨c8_consume_method_grammar.1 "x".data,
   c8_consume_method_grammar.2.1 "GET".data "/".data (by decide) (by decide),
   c8_consume_method_grammar.2.2.1 "G".data '@' "T".data (by decide) (by decide) (by decide)⟩

/-- Serving a string response only appends output events: the request
counter of the resulting state is the caller's. -/
theorem ServeStringRequest_requestCount (env : Env) (st : ClientState)
    (responseLine : String) (mt : MediaType) (body : String) :
    (ServeStringRequest env st responseLine mt body).2.requestCount = st.requestCount := by
  unfold ServeStringRequest SendMetadata writeString
  dsimp only
  split <;> rfl

/-- Error recovery never touches the per-connection request counter. -/
theorem RecoverError_requestCount (env : Env) (st : ClientState) (e : ClientError) :
    (RecoverError env st e).2.requestCount = st.requestCount := by
  cases e <;>
    simp only [RecoverError, RecoverErrorBadRequest, RecoverErrorFileNotFound,
               RecoverErrorTooManyRequestsPerThisConnection, ServeDefaultPage] <;>
    first
      | rfl
      | rw [ServeStringRequest_requestCount]
      | (split_ifs <;> rw [ServeStringRequest_requestCount])

/-- In immediate-close mode the dispatch path never increments the
request counter (the quota guard's first conjunct is false). -/
theorem HandleRequest_requestCount_closeImmediate (env : Env) (st : ClientState)
    (h : env.config.securityPolicies.maxRequestsCloseImmediately = true) :
    (HandleRequest env st).2.requestCount = st.requestCount := by
  unfold HandleRequest SendMetadata writeString sendFileEvent
  rw [h]
  simp only [Bool.not_true, Bool.false_and, Bool.false_eq_true, if_false, false_and]
  cases hf : env.fileResolver st.currentRequest with
  | none => rfl
  | some file =>
    dsimp only
    split
    · rfl
    · split <;> rfl

/-- With immediate-close mode off, resetting the exchange state leaves
the request counter unchanged. -/
theorem ResetExchangeState_requestCount_off (env : Env) (st : ClientState)
    (h : env.config.securityPolicies.maxRequestsCloseImmediately = false) :
    (ResetExchangeState env st).requestCount = st.requestCount := by
  simp [ResetExchangeState, h]

/-- Interpreting the connection headers never touches the request
counter. -/
theorem InterpretConnectionHeaders_requestCount (st : ClientState) :
    (InterpretConnectionHeaders st).requestCount = st.requestCount := by
  unfold InterpretConnectionHeaders
  split_ifs
  · cases headersFind st.currentRequest.headers "connection" <;> simp [apply_ite]
  · rfl

/-- C9 amended: with immediate-close mode off, an exchange that fails
during parsing leaves the request counter unchanged through recovery and
reset (malformed requests never count toward the quota), and any change
of the counter during an exchange implies the parse succeeded — the only
increment site is `HandleRequest`, which runs after a fully parsed
request.  With immediate-close mode on, the exchange itself never
changes the counter, and — provided the limit is nonzero, since the
short-circuit skips the increment when it is zero — `ResetExchangeState`
increments the counter exactly once after every exchange, success or
failure. -/
theorem c9_request_count_increment_locations (env : Env) (st : ClientState) :
    (env.config.securityPolicies.maxRequestsCloseImmediately = false →
       ((parseRequest env.isPathCharacter st.input).1 ≠ ClientError.NO_ERROR →
          (ResetExchangeState env (RunMessageExchange env st).2).requestCount =
            st.requestCount) ∧
       ((RunMessageExchange env st).2.requestCount ≠ st.requestCount →
          (parseRequest env.isPathCharacter st.input).1 = ClientError.NO_ERROR)) ∧
    (env.config.securityPolicies.maxRequestsCloseImmediately = true →
       (RunMessageExchange env st).2.requestCount = st.requestCount ∧
       (env.config.securityPolicies.maxRequestsPerConnection ≠ 0 →
          (ResetExchangeState env st).requestCount = st.requestCount + 1)) := by
  have hexch : ∀ (e : ClientError) (r : Request) (rest : List Char),
      parseRequest env.isPathCharacter st.input = (e, r, rest) →
      e ≠ ClientError.NO_ERROR →
      RunMessageExchange env st =
        RecoverError env { st with currentRequest := r, input := rest } e := by
    intro e r rest hp he
    rw [RunMessageExchange, hp]
    simp [he]
  constructor
  · intro hfalse
    constructor
    · intro hperr
      cases hp : parseRequest env.isPathCharacter st.input with
      | mk e rr =>
        cases rr with
        | mk r rest =>
          have he : e ≠ ClientError.NO_ERROR := by rw [hp] at hperr; exact hperr
          rw [ResetExchangeState_requestCount_off env _ hfalse,
              hexch e r rest hp he, RecoverError_requestCount]
    · intro hchg
      by_contra hne
      apply hchg
      cases hp : parseRequest env.isPathCharacter st.input with
      | mk e rr =>
        cases rr with
        | mk r rest =>
          have he : e ≠ ClientError.NO_ERROR := by rw [hp] at hne; exact hne
          rw [hexch e r rest hp he, RecoverError_requestCount]
  · intro htrue
    constructor
    · cases hp : parseRequest env.isPathCharacter st.input with
      | mk e rr =>
        cases rr with
        | mk r rest =>
          by_cases he : e = ClientError.NO_ERROR
          · subst he
            cases hh : HandleRequest env
                (InterpretConnectionHeaders { st with currentRequest := r, input := rest }) with
            | mk e2 st2 =>
              have hcount : st2.requestCount = st.requestCount := by
                have h1 := HandleRequest_requestCount_closeImmediate env
                  (InterpretConnectionHeaders { st with currentRequest := r, input := rest }) htrue
                rw [hh] at h1
                rw [h1, InterpretConnectionHeaders_requestCount]
              by_cases he2 : e2 = ClientError.NO_ERROR
              · simp [RunMessageExchange, hp, hh, he2, hcount]
              · simp [RunMessageExchange, hp, hh, he2, RecoverError_requestCount, hcount]
          · rw [hexch e r rest hp he, RecoverError_requestCount]
    · intro hmax
      simp [ResetExchangeState, htrue, hmax, apply_ite]

/-- C9 counterexample: with `max_requests_close_immediately = true` and
`max_requests_per_connection = 0`, the short-circuit in
`ResetExchangeState` skips the increment entirely: after an exchange the
counter is unchanged, contradicting "incremented once in
ResetExchangeState after every exchange". -/
theorem c9_counterexample :
    closeImmediateZeroEnv.config.securityPolicies.maxRequestsCloseImmediately = true ∧
    closeImmediateZeroEnv.config.securityPolicies.maxRequestsPerConnection = 0 ∧
    (ResetExchangeState closeImmediateZeroEnv (initialState [])).requestCount =
      (initialState []).requestCount :=
  ⟨rfl, rfl, rfl⟩

/-- Witness for C9: the amended theorem applied with immediate-close mode
off (quota environment, a parse-failing input of a lone space), and with
immediate-close mode on and a nonzero limit. -/
theorem c9_witness :
    (ResetExchangeState quotaEnv
        (RunMessageExchange quotaEnv (initialState " ".data)).2).requestCount =
      (initialState " ".data).requestCount ∧
    (ResetExchangeState
        { plainEnv with config := { plainEnv.config with securityPolicies :=
            { maxRequestsPerConnection := 2, maxRequestsCloseImmediately := true } } }
        (initialState [])).requestCount = (initialState []).requestCount + 1 :=
  ⟨((c9_request_count_increment_locations quotaEnv (initialState " ".data)).1 rfl).1
     (by decide),
   ((c9_request_count_increment_locations
       { plainEnv with config := { plainEnv.config with securityPolicies :=
           { maxRequestsPerConnection := 2, maxRequestsCloseImmediately := true } } }
       (initialState [])).2 rfl).2 (by decide)⟩

/-- Running the path loop over accumulated valid path characters (none of
which is the terminating space) up to a space: the buffer and the
characters are returned; there is no emptiness or length check. -/
theorem ConsumePathAux_valid (p : Char → Bool) (cs : List Char) :
    ∀ (buffer rest : List Char), (∀ c ∈ cs, p c = true) → ' ' ∉ cs →
    ConsumePathAux p buffer (cs ++ ' ' :: rest) = (Except.ok (buffer ++ cs), rest) := by
  induction cs with
  | nil =>
    intro buffer rest _ _
    simp [ConsumePathAux]
  | cons c cs ih =>
    intro buffer rest hval hsp
    have hc : p c = true := hval c (by simp)
    have hcs : ∀ x ∈ cs, p x = true := fun x hx => hval x (by simp [hx])
    have hcsp : c ≠ ' ' := fun he => hsp (by simp [he])
    have hsp2 : ' ' ∉ cs := fun hx => hsp (by simp [hx])
    show ConsumePathAux p buffer (c :: (cs ++ ' ' :: rest)) = _
    rw [ConsumePathAux, if_neg hcsp, hc, if_pos rfl, ih (buffer ++ [c]) rest hcs hsp2]
    simp [List.append_assoc]

/-- The method loop can only fail with its three own errors; in
particular never with `POLICY_TOO_LONG_METHOD`. -/
theorem ConsumeMethodAux_error_ne_policy :
    ∀ (input buffer : List Char) (e : ClientError) (rest : List Char),
    ConsumeMethodAux buffer input = (Except.error e, rest) →
    e ≠ ClientError.POLICY_TOO_LONG_METHOD := by
  intro input
  induction input with
  | nil =>
    intro buffer e rest h
    injection h with h1 h2
    injection h1 with h3
    subst h3
    decide
  | cons c cs ih =>
    intro buffer e rest h
    simp only [ConsumeMethodAux] at h
    split at h
    · split at h
      · injection h with h1 h2
        injection h1 with h3
        subst h3
        decide
      · injection h with h1 h2
        injection h1
    · split at h
      · exact ih _ _ _ h
      · injection h with h1 h2
        injection h1 with h3
        subst h3
        decide

/-- The path loop can only fail with its two own errors; never with
`POLICY_TOO_LONG_METHOD`. -/
theorem ConsumePathAux_error_ne_policy (p : Char → Bool) :
    ∀ (input buffer : List Char) (e : ClientError) (rest : List Char),
    ConsumePathAux p buffer input = (Except.error e, rest) →
    e ≠ ClientError.POLICY_TOO_LONG_METHOD := by
  intro input
  induction input with
  | nil =>
    intro buffer e rest h
    injection h with h1 h2
    injection h1 with h3
    subst h3
    decide
  | cons c cs ih =>
    intro buffer e rest h
    simp only [ConsumePathAux] at h
    split at h
    · injection h with h1 h2
      injection h1
    · split at h
      · exact ih _ _ _ h
      · injection h with h1 h2
        injection h1 with h3
        subst h3
        decide

/-- The version loop can only fail with its two own errors; never with
`POLICY_TOO_LONG_METHOD`. -/
theorem ConsumeVersionGo_error_ne_policy :
    ∀ (input : List Char) (i : Nat) (e : ClientError) (rest : List Char),
    ConsumeVersionGo input i = (Except.error e, rest) →
    e ≠ ClientError.POLICY_TOO_LONG_METHOD := by
  intro input
  induction input with
  | nil =>
    intro i e rest h
    simp only [ConsumeVersionGo] at h
    split at h
    · injection h with h1 h2
      injection h1 with h3
      subst h3
      decide
    · injection h with h1 h2
      injection h1
  | cons c cs ih =>
    intro i e rest h
    simp only [ConsumeVersionGo] at h
    split at h
    · split at h
      · exact ih _ _ _ h
      · injection h with h1 h2
        injection h1 with h3
        subst h3
        decide
    · injection h with h1 h2
      injection h1

/-- The CRLF check can only fail with its two own errors; never with
`POLICY_TOO_LONG_METHOD`. -/
theorem ConsumeCRLF_error_ne_policy :
    ∀ (input : List Char) (e : ClientError) (rest : List Char),
    ConsumeCRLF input = (Except.error e, rest) →
    e ≠ ClientError.POLICY_TOO_LONG_METHOD := by
  intro input e rest h
  match input with
  | [] =>
    injection h with h1 h2
    injection h1 with h3
    subst h3
    decide
  | [c] =>
    injection h with h1 h2
    injection h1 with h3
    subst h3
    decide
  | cr :: lf :: rest2 =>
    simp only [ConsumeCRLF] at h
    split at h
    · injection h with h1 h2
      injection h1
    · injection h with h1 h2
      injection h1 with h3
      subst h3
      decide

/-- The header field-name loop never fails with
`POLICY_TOO_LONG_METHOD`. -/
theorem ConsumeHeaderFieldName_error_ne_policy :
    ∀ (input dest : List Char) (e : ClientError) (rest : List Char),
    ConsumeHeaderFieldName dest input = (Except.error e, rest) →
    e ≠ ClientError.POLICY_TOO_LONG_METHOD := by
  intro input
  induction input with
  | nil =>
    intro dest e rest h
    injection h with h1 h2
    injection h1 with h3
    subst h3
    decide
  | cons c cs ih =>
    intro dest e rest h
    simp only [ConsumeHeaderFieldName] at h
    split at h
    · injection h with h1 h2
      injection h1
    · split at h
      · exact ih _ _ _ h
      · injection h with h1 h2
        injection h1 with h3
        subst h3
        decide

/-- The optional-whitespace loop never fails with
`POLICY_TOO_LONG_METHOD`. -/
theorem ConsumeOptionalWhitespace_error_ne_policy :
    ∀ (input : List Char) (e : ClientError) (rest : List Char),
    ConsumeOptionalWhitespace input = (Except.error e, rest) →
    e ≠ ClientError.POLICY_TOO_LONG_METHOD := by
  intro input
  induction input with
  | nil =>
    intro e rest h
    injection h with h1 h2
    injection h1 with h3
    subst h3
    decide
  | cons c cs ih =>
    intro e rest h
    simp only [ConsumeOptionalWhitespace] at h
    split at h
    · exact ih _ _ h
    · injection h with h1 h2
      injection h1

/-- The header field-value loop never fails with
`POLICY_TOO_LONG_METHOD`. -/
theorem ConsumeHeaderFieldValue_error_ne_policy :
    ∀ (input dest : List Char) (e : ClientError) (rest : List Char),
    ConsumeHeaderFieldValue dest input = (Except.error e, rest) →
    e ≠ ClientError.POLICY_TOO_LONG_METHOD := by
  intro input
  induction input with
  | nil =>
    intro dest e rest h
    injection h with h1 h2
    injection h1 with h3
    subst h3
    decide
  | cons c cs ih =>
    intro dest e rest h
    simp only [ConsumeHeaderFieldValue] at h
    split at h
    · split at h
      · injection h with h1 h2
        injection h1 with h3
        subst h3
        decide
      · split at h
        · injection h with h1 h2
          injection h1
        · injection h with h1 h2
          injection h1 with h3
          subst h3
          decide
    · split at h
      · exact ih _ _ _ h
      · injection h with h1 h2
        injection h1 with h3
        subst h3
        decide

/-- A whole header field never fails with `POLICY_TOO_LONG_METHOD`. -/
theorem ConsumeHeaderField_error_ne_policy
    (c : Char) (input : List Char) (e : ClientError) (rest : List Char)
    (h : ConsumeHeaderField c input = (Except.error e, rest)) :
    e ≠ ClientError.POLICY_TOO_LONG_METHOD := by
  unfold ConsumeHeaderField at h
  cases hn : ConsumeHeaderFieldName [] input with
  | mk res1 rest1 =>
    rw [hn] at h
    cases res1 with
    | error e1 =>
      dsimp only at h
      injection h with h1 h2
      injection h1 with h3
      subst h3
      exact ConsumeHeaderFieldName_error_ne_policy input [] e1 rest1 hn
    | ok nameTail =>
      dsimp only at h
      cases hw : ConsumeOptionalWhitespace rest1 with
      | mk res2 rest2 =>
        rw [hw] at h
        cases res2 with
        | error e2 =>
          dsimp only at h
          injection h with h1 h2
          injection h1 with h3
          subst h3
          exact ConsumeOptionalWhitespace_error_ne_policy rest1 e2 rest2 hw
        | ok c2 =>
          dsimp only at h
          cases hv : ConsumeHeaderFieldValue [c2] rest2 with
          | mk res3 rest3 =>
            rw [hv] at h
            cases res3 with
            | error e3 =>
              dsimp only at h
              injection h with h1 h2
              injection h1 with h3
              subst h3
              exact ConsumeHeaderFieldValue_error_ne_policy rest2 [c2] e3 rest3 hv
            | ok fieldValue =>
              dsimp only at h
              injection h with h1 h2
              injection h1

/-- The header block loop never fails with `POLICY_TOO_LONG_METHOD`. -/
theorem ConsumeHeadersGo_error_ne_policy :
    ∀ (fuel : Nat) (hs : Headers) (input : List Char) (e : ClientError)
      (hs2 : Headers) (rest : List Char),
    ConsumeHeadersGo fuel hs input = (e, hs2, rest) →
    e ≠ ClientError.POLICY_TOO_LONG_METHOD := by
  intro fuel
  induction fuel with
  | zero =>
    intro hs input e hs2 rest h
    injection h with h1 h2
    subst h1
    decide
  | succ fuel ih =>
    intro hs input e hs2 rest h
    simp only [ConsumeHeadersGo] at h
    match input, h with
    | [], h =>
      injection h with h1 h2
      subst h1
      decide
    | c :: rest1, h =>
      dsimp only at h
      by_cases hc : c = '\r'
      · rw [if_pos hc] at h
        match rest1, h with
        | [], h =>
          injection h with h1 h2
          subst h1
          decide
        | c2 :: rest2, h =>
          dsimp only at h
          split at h <;>
            (injection h with h1 h2; subst h1; decide)
      · rw [if_neg hc] at h
        cases hfield : ConsumeHeaderField c rest1 with
        | mk res rest2 =>
          rw [hfield] at h
          cases res with
          | error e1 =>
            dsimp only at h
            injection h with h1 h2
            subst h1
            exact ConsumeHeaderField_error_ne_policy c rest1 _ rest2 hfield
          | ok nv =>
            obtain ⟨n, v⟩ := nv
            dsimp only at h
            exact ih _ _ _ _ _ h

/-- Path validation returns one of its two own errors or `NO_ERROR`;
never `POLICY_TOO_LONG_METHOD`. -/
theorem ValidateCurrentRequestPath_ne_policy (r : Request) :
    ValidateCurrentRequestPath r ≠ ClientError.POLICY_TOO_LONG_METHOD := by
  unfold ValidateCurrentRequestPath
  rcases hp : r.path.data with _ | ⟨c, cs⟩
  · simp [hp]
  · simp [hp]
    split <;> decide

/-- Component extraction returns the multiple-question-marks error or
`NO_ERROR`; never `POLICY_TOO_LONG_METHOD`. -/
theorem ExtractComponentsFromPath_error_ne_policy (r : Request) (e : ClientError)
    (r2 : Request) (h : ExtractComponentsFromPath r = (e, r2)) :
    e ≠ ClientError.POLICY_TOO_LONG_METHOD := by
  unfold ExtractComponentsFromPath at h
  dsimp only at h
  split at h
  · injection h with h1 h2
    subst h1
    decide
  · split at h
    all_goals (injection h with h1 h2; subst h1; decide)

/-- The composed parser never returns `POLICY_TOO_LONG_METHOD`. -/
theorem parseRequest_error_ne_policy (p : Char → Bool) (input : List Char)
    (e : ClientError) (r : Request) (rest : List Char)
    (h : parseRequest p input = (e, r, rest)) :
    e ≠ ClientError.POLICY_TOO_LONG_METHOD := by
  unfold parseRequest at h
  split at h
  next e1 rest1 heq =>
    injection h with h1 h2
    subst h1
    exact ConsumeMethodAux_error_ne_policy input [] _ _ heq
  next m rest1 heq =>
    try dsimp only at h
    split at h
    next e2 rest2 heq2 =>
      injection h with h1 h2
      subst h1
      exact ConsumePathAux_error_ne_policy p rest1 [] _ _ heq2
    next pa rest2 heq2 =>
      try dsimp only at h
      split at h
      next hvne =>
        injection h with h1 h2
        subst h1
        exact ValidateCurrentRequestPath_ne_policy _
      next hveq =>
        split at h
        next hene =>
          injection h with h1 h2
          subst h1
          exact ExtractComponentsFromPath_error_ne_policy _ _ _ rfl
        next heeq =>
          split at h
          next e3 rest3 heq4 =>
            injection h with h1 h2
            subst h1
            exact ConsumeVersionGo_error_ne_policy rest2 0 _ _ heq4
          next u rest3 heq4 =>
            split at h
            next e4 rest4 heq5 =>
              injection h with h1 h2
              subst h1
              exact ConsumeCRLF_error_ne_policy rest3 _ _ heq5
            next u2 rest4 heq5 =>
              injection h with h1 h2
              subst h1
              exact ConsumeHeadersGo_error_ne_policy _ _ _ _ _ _ rfl

/-- C10: neither `ConsumeMethod` nor `ConsumePath` imposes any length
limit — every run of valid token (respectively path) characters before
the terminating space is accepted verbatim, however long — and no
parsing stage (method, path, path validation, component extraction,
version, CRLF, headers, nor the composed parser) ever returns the error
variant `POLICY_TOO_LONG_METHOD`. -/
theorem c10_no_length_limit :
    (∀ (p : Char → Bool) (cs rest : List Char),
       (∀ c ∈ cs, p c = true) → ' ' ∉ cs →
       ConsumePath p (cs ++ ' ' :: rest) = (Except.ok cs, rest)) ∧
    (∀ (cs rest : List Char), (∀ c ∈ cs, Utils.IsTokenCharacter c = true) → cs ≠ [] →
       ConsumeMethod (cs ++ ' ' :: rest) = (Except.ok cs, rest)) ∧
    (∀ (input : List Char) (e : ClientError) (rest : List Char),
       ConsumeMethod input = (Except.error e, rest) →
       e ≠ ClientError.POLICY_TOO_LONG_METHOD) ∧
    (∀ (p : Char → Bool) (input : List Char) (e : ClientError) (rest : List Char),
       ConsumePath p input = (Except.error e, rest) →
       e ≠ ClientError.POLICY_TOO_LONG_METHOD) ∧
    (∀ (input : List Char) (e : ClientError) (rest : List Char),
       ConsumeVersion input = (Except.error e, rest) →
       e ≠ ClientError.POLICY_TOO_LONG_METHOD) ∧
    (∀ (input : List Char) (e : ClientError) (rest : List Char),
       ConsumeCRLF input = (Except.error e, rest) →
       e ≠ ClientError.POLICY_TOO_LONG_METHOD) ∧
    (∀ (hs : Headers) (input : List Char),
       (ConsumeHeaders hs input).1 ≠ ClientError.POLICY_TOO_LONG_METHOD) ∧
    (∀ r : Request, ValidateCurrentRequestPath r ≠ ClientError.POLICY_TOO_LONG_METHOD) ∧
    (∀ r : Request, (ExtractComponentsFromPath r).1 ≠ ClientError.POLICY_TOO_LONG_METHOD) ∧
    (∀ (p : Char → Bool) (input : List Char),
       (parseRequest p input).1 ≠ ClientError.POLICY_TOO_LONG_METHOD) := by
  refine ⟨?_, ?_, ?_, ?_, ?_, ?_, ?_, ?_, ?_, ?_⟩
  · intro p cs rest hval hsp
    exact ConsumePathAux_valid p cs [] rest hval hsp
  · intro cs rest hval hne
    rw [ConsumeMethod, ConsumeMethodAux_valid cs [] rest hval]
    simp [hne]
  · intro input e rest h
    exact ConsumeMethodAux_error_ne_policy input [] e rest h
  · intro p input e rest h
    exact ConsumePathAux_error_ne_policy p input [] e rest h
  · intro input e rest h
    exact ConsumeVersionGo_error_ne_policy input 0 e rest h
  · intro input e rest h
    exact ConsumeCRLF_error_ne_policy input e rest h
  · intro hs input
    exact ConsumeHeadersGo_error_ne_policy _ _ _ _ _ _ rfl
  · intro r
    exact ValidateCurrentRequestPath_ne_policy r
  · intro r
    exact ExtractComponentsFromPath_error_ne_policy _ _ _ rfl
  · intro p input
    exact parseRequest_error_ne_policy p input _ _ _ rfl

/-- Witness for C10: a long method and a long path (40 characters each)
are accepted verbatim, and the parser's verdict on a concrete request is
not the policy error. -/
theorem c10_witness :
    ConsumePath (fun c => c ≠ ' ')
        ("/aaaaaaaaaaaaaaaaaaaaaaaaaaaaaaaaaaaaaaa".data ++ ' ' :: []) =
      (Except.ok "/aaaaaaaaaaaaaaaaaaaaaaaaaaaaaaaaaaaaaaa".data, []) ∧
    ConsumeMethod ("MMMMMMMMMMMMMMMMMMMMMMMMMMMMMMMMMMMMMMMM".data ++ ' ' :: []) =
      (Except.ok "MMMMMMMMMMMMMMMMMMMMMMMMMMMMMMMMMMMMMMMM".data, []) ∧
    (parseRequest (fun c => c ≠ ' ') " ".data).1 ≠ ClientError.POLICY_TOO_LONG_METHOD :=
  ⟨c10_no_length_limit.1 (fun c => c ≠ ' ')
     "/aaaaaaaaaaaaaaaaaaaaaaaaaaaaaaaaaaaaaaa".data [] (by decide) (by decide),
   c10_no_length_limit.2.1 "MMMMMMMMMMMMMMMMMMMMMMMMMMMMMMMMMMMMMMMM".data [] (by decide) (by decide),
   c10_no_length_limit.2.2.2.2.2.2.2.2.2 (fun c => c ≠ ' ') " ".data⟩
